import Mathlib

/-!
# Verification of the vdm-io/uikit upload widget

A shallow embedding of the repository's JavaScript sources:

* `src/src/js/core/UploadHelper.js` — class `UploadHelper` (bundled into
  `dist/js/vdm.js` under the name `FileType`): a per-key metadata store
  with `set` / `get` / `init` / `getParams`.
* `src/src/js/util/display.js` — class `Display` (later revision) and the
  earlier `DisplayHelper` revision found in `src/unnamed/part_003`:
  fetch an HTML fragment and fill or clear a target DOM region.
* `src/unnamed/part_004` — class `DeleteFile`: confirm-and-delete flow.
* `src/unnamed/part_003` / `src/unnamed/part_002` — class `UikitUploader`,
  the per-field upload-component attachment logic (two revisions).

JavaScript objects used as string-keyed records are modelled as
association lists with first-occurrence update semantics; `fetch`
responses are modelled as an explicit outcome value (network throw,
non-OK HTTP response, or a parsed JSON body); DOM mutations, dispatched
custom events, notifications and network requests are modelled as
explicit effect lists so that "nothing observable happens" is the
equation `effects = []`.
-/

/-- Association-list lookup: the value at the first occurrence of key `k`,
`none` when `k` is absent.  Models JavaScript property read `o[k]`
(with `none` standing for `undefined`). -/
def alGet : List (String × α) → String → Option α
  | [], _ => none
  | (k0, v0) :: t, k => if k0 = k then some v0 else alGet t k

/-- Association-list update: replaces the value at the first occurrence of
key `k`, appends the binding when `k` is absent.  Models JavaScript
property write `o[k] = v`. -/
def alSet : List (String × α) → String → α → List (String × α)
  | [], k, v => [(k, v)]
  | (k0, v0) :: t, k, v => if k0 = k then (k, v) :: t else (k0, v0) :: alSet t k v

/-- Primitive JavaScript values appearing in metadata records: `null`,
strings, numbers, booleans, and arrays of element ids (the shape the
server sends for `param_fields` / `display_fields`). -/
inductive JSValue where
  | vNull
  | vStr (s : String)
  | vNum (n : Int)
  | vBool (b : Bool)
  | vArr (xs : List String)
deriving DecidableEq, Repr

/-- JavaScript truthiness of an optional string field (`undefined` and the
empty string are falsy, every other string is truthy).  Models the guards
`if (result.error)`, `if (data.success)` and the like. -/
def truthyStr : Option String → Bool
  | none => false
  | some s => s != ""

/-- The `#data` private field of `UploadHelper` (`src/src/js/core/UploadHelper.js`
line 36): a map from composite key to a metadata record. -/
abbrev Store := List (String × List (String × JSValue))

/-- The `keyOrObject` parameter of `UploadHelper.set`: either an object to
merge or a single key (with the separate `value` argument). -/
inductive SetArg where
  | objArg (o : List (String × JSValue))
  | kvArg (k : String) (v : JSValue)
deriving DecidableEq, Repr

/-- Model of `UploadHelper.set` (`src/src/js/core/UploadHelper.js` lines 55-66):
creates the record for `id` if absent (`this.#data[id] = this.#data[id] || {}`),
then either `Object.assign`-merges an object into it or writes one key. -/
def UploadHelper.set (store : Store) (id : String) (arg : SetArg) : Store :=
  let r := (alGet store id).getD []
  match arg with
  | .objArg o => alSet store id (o.foldl (fun acc p => alSet acc p.1 p.2) r)
  | .kvArg k v => alSet store id (alSet r k v)

/-- The value returned by `UploadHelper.get`: either the whole record for
the id (when `key` is omitted) or a primitive value. -/
inductive GetResult where
  | obj (r : List (String × JSValue))
  | prim (v : JSValue)
deriving DecidableEq, Repr

/-- Model of `UploadHelper.get` (`src/src/js/core/UploadHelper.js` lines 79-94):
unknown id yields the default; omitted key yields the whole record;
otherwise `idData[key] ?? defaultValue`, where the null-coalescing
operator turns both an absent key and a stored `null` into the default. -/
def UploadHelper.get (store : Store) (id : String) (key : Option String)
    (defaultValue : JSValue) : GetResult :=
  match alGet store id with
  | none => .prim defaultValue
  | some idData =>
    match key with
    | none => .obj idData
    | some k =>
      match alGet idData k with
      | none => .prim defaultValue
      | some v => if v = .vNull then .prim defaultValue else .prim v

/-- The JSON body a metadata fetch can resolve to: optional `data` field
(an object or a primitive — the code checks `typeof result.data === 'object'`)
and optional `error` field. -/
structure MetaBody where
  data : Option SetArg
  error : Option String
deriving DecidableEq, Repr

/-- Outcome of the `fetch` performed by `UploadHelper.#fetchData`
(lines 134-146): the promise chain rejects (network failure or malformed
JSON), the response is not OK (`#fetchData` logs and returns `undefined`),
or a parsed JSON body is produced. -/
inductive FetchOutcome where
  | netThrow
  | httpBad
  | ok (body : MetaBody)
deriving DecidableEq, Repr

/-- Whether the body's `data` field passes the guard
`result?.data && typeof result.data === 'object'` of `init` (line 118):
it must be present and an object. -/
def dataIsObj : Option SetArg → Bool
  | some (.objArg _) => true
  | _ => false

/-- Default message of the `throw` in `UploadHelper.init` line 121. -/
def initErrorFallback : String := "An error occurred during the file type request."

/-- The body of the `try` block in `UploadHelper.init`
(`src/src/js/core/UploadHelper.js` lines 112-122), as an `Except`:
`.error` is a raised exception, `.ok` a normally completed block
returning the updated store.  On an OK response with object `data` the
record is merged via `set`; on a truthy `error` field an `Error` carrying
`result.error || <fallback>` is thrown; any other body does nothing. -/
def UploadHelper.initTry (store : Store) (resp : FetchOutcome) (id : String) :
    Except String Store :=
  match resp with
  | .netThrow => .error "network error"
  | .httpBad => .ok store
  | .ok body =>
    match body.data with
    | some (.objArg r) => .ok (UploadHelper.set store id (.objArg r))
    | _ =>
      if truthyStr body.error then
        .error (match body.error with
          | some e => if e = "" then initErrorFallback else e
          | none => initErrorFallback)
      else .ok store

/-- Model of `UploadHelper.init` (`src/src/js/core/UploadHelper.js` lines 106-126).
Returns the new store and the number of network fetches performed (0 or 1).
If a record for `id` exists and `reset` is false it returns immediately
without fetching; otherwise it fetches once and runs the `try` block,
whose `catch` (lines 123-125) only logs: every exception raised inside the
`try` — including the deliberate `throw` on an `error` body — is swallowed
and `init` resolves normally with the store unchanged. -/
def UploadHelper.init (store : Store) (resp : FetchOutcome) (id : String)
    (reset : Bool) : Store × Nat :=
  if (alGet store id).isSome && !reset then (store, 0)
  else
    match UploadHelper.initTry store resp id with
    | .ok s => (s, 1)
    | .error _ => (store, 1)

/-- One iteration of the `ids.forEach` loop of `UploadHelper.getParams`
(`src/src/js/core/UploadHelper.js` lines 164-172).  The DOM is modelled as
`dom : String → Option String` mapping an element id to its live `value`
when an element with that id exists: when `document.getElementById(id)`
finds an element, `params[id] = field.value`, else `params` is unchanged. -/
def getParamsStep (dom : String → Option String)
    (params : String → Option String) (id : String) : String → Option String :=
  match dom id with
  | some v => fun k => if k = id then some v else params k
  | none => params

/-- Model of `UploadHelper.getParams` (`src/src/js/core/UploadHelper.js` lines 154-176):
the `forEach` loop as a fold of `getParamsStep` over the id list starting
from the empty `params` object.  The argument is `none` when the
JavaScript value fails `Array.isArray` (non-list input), which returns the
empty mapping via the early return; the early return for an empty array
coincides with folding over the empty list. -/
def UploadHelper.getParams (dom : String → Option String) :
    Option (List String) → (String → Option String)
  | none => fun _ => none
  | some ids => ids.foldl (getParamsStep dom) (fun _ => none)

/-- The target DOM region of the fragment display: its `innerHTML` and
whether the `hidden` attribute is set. -/
structure Region where
  content : String
  hidden : Bool
deriving DecidableEq, Repr

/-- The JSON body a display fetch can resolve to: optional `data`
(an HTML string) and optional `error`. -/
structure DispBody where
  data : Option String
  error : Option String
deriving DecidableEq, Repr

/-- Outcome of the fragment fetch: the promise chain throws (network
failure or malformed JSON), the response is not OK, or a parsed body. -/
inductive DispResp where
  | netThrow
  | httpBad
  | ok (body : DispBody)
deriving DecidableEq, Repr

/-- Custom events dispatched by the later `Display` revision
(`src/src/js/util/display.js`, prefix `vdm.uikit.display.`). -/
inductive DispEvent where
  | beforeGetFilesDisplay
  | beforeHideFilesDisplay
  | afterHideFilesDisplay
  | beforeFilesDisplay
  | afterFilesDisplay
deriving DecidableEq, Repr

/-- Whitespace for the purposes of JavaScript `String.prototype.trim`
(space, tab, and line terminators — the characters this codebase's HTML
fragments can realistically lead or trail with). -/
def isJsWhitespace (c : Char) : Bool :=
  c = ' ' || c = '\t' || c = '\n' || c = '\r' || c = '\x0b' || c = '\x0c'

/-- JavaScript `String.prototype.trim`: the string with leading and
trailing whitespace removed. -/
def jsTrim (s : String) : String :=
  ⟨((s.data.dropWhile isJsWhitespace).reverse.dropWhile isJsWhitespace).reverse⟩

/-- The blank-content test `!result.data || result.data.trim() === ''`
of both display revisions: `data` absent, the empty string (falsy), or
whitespace-only after trimming. -/
def blankData : Option String → Bool
  | none => true
  | some s => s = "" || jsTrim s = ""

/-- Model of `Display.set` (later revision, `src/src/js/util/display.js` lines 30-92).
Returns the region after the call together with the dispatched events.
The `beforeGetFilesDisplay` event fires before the fetch; a non-OK
response, a truthy `error` field, or a thrown fetch/parse error each
return with the region untouched (the `catch` only logs); on success a
blank `data` empties the content and sets `hidden` between the two hide
events, and a non-blank `data` replaces the content and removes `hidden`
between the two display events. -/
def Display.set (region : Region) (resp : DispResp) : Region × List DispEvent :=
  match resp with
  | .netThrow => (region, [.beforeGetFilesDisplay])
  | .httpBad => (region, [.beforeGetFilesDisplay])
  | .ok body =>
    if truthyStr body.error then (region, [.beforeGetFilesDisplay])
    else if blankData body.data then
      (⟨"", true⟩,
        [.beforeGetFilesDisplay, .beforeHideFilesDisplay, .afterHideFilesDisplay])
    else
      (⟨body.data.getD "", false⟩,
        [.beforeGetFilesDisplay, .beforeFilesDisplay, .afterFilesDisplay])

/-- Model of `DisplayHelper.set` (earlier revision, `src/unnamed/part_003` lines
286-326).  No events, no `error`-field check and no visibility changes:
a non-OK response returns with the region untouched, but a parsed body
whose `data` is absent or blank — which includes every `{error: ...}`
body — clears the content, and the `catch` (lines 317-325) clears the
content on a thrown fetch/parse error. -/
def DisplayHelper.set (region : Region) (resp : DispResp) : Region :=
  match resp with
  | .netThrow => { region with content := "" }
  | .httpBad => region
  | .ok body =>
    if blankData body.data then { region with content := "" }
    else { region with content := body.data.getD "" }

/-- Payloads of the custom events dispatched by `DeleteFile`
(`src/unnamed/part_004`): `{guid}`, `{data, guid}` with the parsed
response's `success`/`error` fields, or `{element, guid}`. -/
inductive DelPayload where
  | guidOnly (guid : String)
  | withData (success : Option String) (error : Option String) (guid : String)
  | elemGuid (elemId : String) (guid : String)
deriving DecidableEq, Repr

/-- Observable effects of the `DeleteFile` flow, in order: the
confirmation dialog, the network request, a dispatched custom event, a
UIkit notification, removal of the DOM node with the given id, and a
console error log. -/
inductive DelEffect where
  | confirmPrompt (msg : String)
  | request (url : String)
  | emit (name : String) (payload : DelPayload)
  | notify (message : String) (status : String)
  | removeNode (id : String)
  | logError (msg : String)
deriving DecidableEq, Repr

/-- The JSON body of the delete response: optional `success` and `error`. -/
structure DelBody where
  success : Option String
  error : Option String
deriving DecidableEq, Repr

/-- Outcome of the delete fetch: `#serverDelete` parses the JSON of any
resolved response (there is no `response.ok` check in `part_004`), so the
cases are a rejection anywhere in the promise chain, or a parsed body. -/
inductive DelResp where
  | netThrow
  | ok (body : DelBody)
deriving DecidableEq, Repr

/-- Model of `DeleteFile.#buildUrl` (`src/unnamed/part_004` lines 150-153), also
the shape shared by `UploadHelper.#buildUrl` and `UikitUploader.#buildUrl`:
append `guid=<id>` with `&` when the endpoint already has a query string,
else with `?`. -/
def DeleteFile.buildUrl (endpoint : String) (guid : String) : String :=
  endpoint ++ (if endpoint.contains '?' then "&" else "?") ++ "guid=" ++ guid

/-- The confirmation text of `DeleteFile.delete` line 52. -/
def deleteConfirmMsg : String :=
  "Are you sure you want to delete this file! It can not be undone!"

/-- Model of `DeleteFile.#fileRemoveFromUI` (`src/unnamed/part_004` lines 125-131):
when a DOM node with id `guid` exists, dispatch `beforeFileRemoveFromUI`
with `{element, guid}` and remove the node; otherwise do nothing. -/
def DeleteFile.fileRemoveFromUI (domHas : String → Bool) (guid : String) :
    List DelEffect :=
  if domHas guid then
    [.emit "vdm.uikit.delete.beforeFileRemoveFromUI" (.elemGuid guid guid),
     .removeNode guid]
  else []

/-- Model of `DeleteFile.#handleResponse` (`src/unnamed/part_004` lines 89-98):
on a truthy `success` remove the node, show a `primary` notification with
the success message, and dispatch `afterFileDelete` with `{data, guid}`;
otherwise on a truthy `error` dispatch `onFileDeleteError` and show a
`danger` notification; otherwise do nothing. -/
def DeleteFile.handleResponse (domHas : String → Bool) (guid : String)
    (body : DelBody) : List DelEffect :=
  if truthyStr body.success then
    DeleteFile.fileRemoveFromUI domHas guid
      ++ [.notify (body.success.getD "") "primary",
          .emit "vdm.uikit.delete.afterFileDelete"
            (.withData body.success body.error guid)]
  else if truthyStr body.error then
    [.emit "vdm.uikit.delete.onFileDeleteError"
       (.withData body.success body.error guid),
     .notify (body.error.getD "") "danger"]
  else []

/-- Model of `DeleteFile.#serverDelete` (`src/unnamed/part_004` lines 62-79): with
no endpoint configured, log (debug-gated) and abort; otherwise dispatch
`beforeFileDelete` with `{guid}`, issue the GET request, and either handle
the parsed body or log a rejection (`.catch(console.error)`). -/
def DeleteFile.serverDelete (endpoint : String) (domHas : String → Bool)
    (guid : String) (resp : DelResp) : List DelEffect :=
  if endpoint = "" then [.logError "Error: The delete endpoint is not configured."]
  else
    [.emit "vdm.uikit.delete.beforeFileDelete" (.guidOnly guid),
     .request (DeleteFile.buildUrl endpoint guid)]
      ++ match resp with
         | .netThrow => [.logError "transport error"]
         | .ok body => DeleteFile.handleResponse domHas guid body

/-- Model of `DeleteFile.delete` (`src/unnamed/part_004` lines 47-54): a falsy
`fileGuid` or one with `length <= 30` returns with no observable effect;
otherwise the confirmation dialog opens, and only when the user confirms
does `#serverDelete` run (a declined dialog produces nothing further). -/
def DeleteFile.delete (endpoint : String) (domHas : String → Bool)
    (confirmed : Bool) (resp : DelResp) (guid : String) : List DelEffect :=
  if guid = "" || guid.length ≤ 30 then []
  else
    .confirmPrompt deleteConfirmMsg ::
      (if confirmed then DeleteFile.serverDelete endpoint domHas guid resp else [])

/-- State of the upload-component attachment bookkeeping of
`UikitUploader`: the upload-UI component instances currently live
(tagged with the field id they were attached for), the class's private
`#uploadInstances` registry, and a counter supplying fresh instance
handles. -/
structure UploaderState where
  live : List (String × Nat)
  registry : List (String × Nat)
  nextHandle : Nat
deriving DecidableEq, Repr

/-- Removes one attached component instance (a `$destroy(true)` call on
the handle `h` attached for field `id`). -/
def destroyInstance : List (String × Nat) → String → Nat → List (String × Nat)
  | [], _, _ => []
  | p :: t, id, h =>
    if p = (id, h) then destroyInstance t id h else p :: destroyInstance t id h

/-- The instance handling of `UikitUploader.#initUpload` in
`src/unnamed/part_003` (lines 130-132 and 156), the same logic as the
built bundle `dist/js/Uploader.js` (lines 438-441): if `#uploadInstances`
holds an instance for this field id, `$destroy(true)` it, then attach a
new `uikit.upload` component and store it in `#uploadInstances[id]`. -/
def UikitUploader.initUploadPart003 (st : UploaderState) (id : String) :
    UploaderState :=
  let afterDestroy :=
    match alGet st.registry id with
    | some h => { st with live := destroyInstance st.live id h }
    | none => st
  { live := afterDestroy.live ++ [(id, st.nextHandle)],
    registry := alSet afterDestroy.registry id st.nextHandle,
    nextHandle := st.nextHandle + 1 }

/-- The instance handling of `UikitUploader.#initUpload` in
`src/unnamed/part_002` (lines 89-131): `this.#uikit.upload(...)` is
called without destroying any previous instance and without recording the
new one — the class's `#uploadInstances = {}` field (line 14) is declared
but never read or written anywhere in that revision. -/
def UikitUploader.initUploadPart002 (st : UploaderState) (id : String) :
    UploaderState :=
  { live := st.live ++ [(id, st.nextHandle)],
    registry := st.registry,
    nextHandle := st.nextHandle + 1 }

/-- The upload-component instances live for field `id`. -/
def liveFor (st : UploaderState) (id : String) : List (String × Nat) :=
  st.live.filter (fun p => p.1 = id)

/-! ## Helper lemmas -/

theorem alGet_alSet_self (l : List (String × α)) (k : String) (v : α) :
    alGet (alSet l k v) k = some v := by
  induction l with
  | nil => simp [alSet, alGet]
  | cons p t ih =>
    by_cases h : p.1 = k
    · simp [alSet, alGet, h]
    · simp [alSet, alGet, h, ih]

/-! ## Claims -/

/-- C1: the claim reads "for every call `MetadataStore.init(key, remoteId,
reset)` whose fetch resolves to a JSON body containing an `error` field,
init raises a failure carrying that error message to its caller".  The
code builds exactly that failure — the `try` body raises the message — but
`init`'s own `catch` (`src/src/js/core/UploadHelper.js` lines 123-125,
identically `dist/js/vdm.js` lines 133-135) swallows it and only logs, so
`init` resolves normally with the record unset and its caller (the
per-field initializer, whose notification path expects this exception)
never sees it, contradicting `init`'s own doc comment "any error occurred
while operation will be thrown".  Evaluated at the failing input: store
empty, response `{error: "boom"}`. -/
theorem c1_init_error_swallowed :
    UploadHelper.initTry [] (.ok ⟨none, some "boom"⟩) "field1" = .error "boom"
    ∧ UploadHelper.init [] (.ok ⟨none, some "boom"⟩) "field1" false = ([], 1) := by
  exact ⟨rfl, rfl⟩

/-- C2: the claim reads "whenever `initializeUpload` runs again for a
field, the previously attached upload component instance for that field id
is torn down before a new one is attached".  The `part_003` revision (and
the built `dist/js/Uploader.js`) does destroy the previous instance, but
the `part_002` revision's `#initUpload` — cited by the claim — attaches a
new `uikit.upload` component without destroying anything (its
`#uploadInstances` field is declared and never used): evaluated at the
failing input of two initializations for the same field id, two component
instances are live simultaneously under `part_002`, while `part_003`
keeps exactly one. -/
theorem c2_part002_attaches_without_teardown :
    (liveFor (UikitUploader.initUploadPart002
        (UikitUploader.initUploadPart002 ⟨[], [], 0⟩ "field1") "field1") "field1").length = 2
    ∧ (liveFor (UikitUploader.initUploadPart003
        (UikitUploader.initUploadPart003 ⟨[], [], 0⟩ "field1") "field1") "field1").length = 1 := by
  exact ⟨rfl, rfl⟩

/-- C7: for every `fileId` that is absent (falsy — the empty string, whose
length is 0) or of length at most 30 characters, `DeleteFile.delete`
returns having produced no observable effect at all — in particular no
confirmation dialog and no network request (`src/unnamed/part_004`
lines 47-54). -/
theorem c7_short_fileId_noop (endpoint : String) (domHas : String → Bool)
    (confirmed : Bool) (resp : DelResp) (guid : String)
    (h : guid.length ≤ 30) :
    DeleteFile.delete endpoint domHas confirmed resp guid = [] := by
  simp [DeleteFile.delete, h]

theorem c7_short_fileId_noop_witness :
    ("short-id" : String).length ≤ 30
    ∧ DeleteFile.delete "https://example.org/del" (fun _ => true) true
        (.ok ⟨some "removed", none⟩) "short-id" = [] :=
  ⟨by decide,
   c7_short_fileId_noop "https://example.org/del" (fun _ => true) true
     (.ok ⟨some "removed", none⟩) "short-id" (by decide)⟩

/-- C10: after a confirmed delete of a valid-length id, when the parsed
response contains neither a `success` nor an `error` field,
`#handleResponse` (`src/unnamed/part_004` lines 89-98) takes neither
branch: the effect trace ends with the `beforeFileDelete` event and the
GET request — no node removal, no notification, and no further lifecycle
event. -/
theorem c10_no_success_no_error_silent (endpoint : String)
    (domHas : String → Bool) (guid : String)
    (h1 : 30 < guid.length) (h2 : endpoint ≠ "") :
    DeleteFile.delete endpoint domHas true (.ok ⟨none, none⟩) guid =
      [.confirmPrompt deleteConfirmMsg,
       .emit "vdm.uikit.delete.beforeFileDelete" (.guidOnly guid),
       .request (DeleteFile.buildUrl endpoint guid)] := by
  have hne : guid ≠ "" := by
    intro h
    rw [h] at h1
    simp at h1
  simp [DeleteFile.delete, DeleteFile.serverDelete, DeleteFile.handleResponse,
    hne, h2, truthyStr, Nat.not_le.mpr h1]

theorem c10_no_success_no_error_silent_witness :
    30 < ("abcdefgh-1234-5678-9abc-def012345678" : String).length
    ∧ DeleteFile.delete "https://example.org/del" (fun _ => true) true
        (.ok ⟨none, none⟩) "abcdefgh-1234-5678-9abc-def012345678" =
      [.confirmPrompt deleteConfirmMsg,
       .emit "vdm.uikit.delete.beforeFileDelete"
         (.guidOnly "abcdefgh-1234-5678-9abc-def012345678"),
       .request (DeleteFile.buildUrl "https://example.org/del"
         "abcdefgh-1234-5678-9abc-def012345678")] :=
  ⟨by decide,
   c10_no_success_no_error_silent "https://example.org/del" (fun _ => true)
     "abcdefgh-1234-5678-9abc-def012345678" (by decide) (by decide)⟩

/-- C3 counterexample: the claim as stated — every error path of the
fragment display leaves the target region's content and visibility exactly
as they were — is false for the earlier revision `DisplayHelper.set`
(`src/unnamed/part_003` lines 286-326), which the claim cites: that
revision has no `error`-field check, so the HTTP-successful body
`{error: "oops"}` falls into the blank-`data` branch and empties a region
that previously held `"old"`. -/
theorem c3_counterexample :
    DisplayHelper.set ⟨"old", false⟩ (.ok ⟨none, some "oops"⟩) = ⟨"", false⟩
    ∧ ("" : String) ≠ "old" := by
  exact ⟨rfl, by decide⟩

/-- C3 amended: in the later revision `Display.set`
(`src/src/js/util/display.js` lines 30-92) a non-OK HTTP response, a body
with a truthy `error` field, and a thrown fetch/parse error each leave the
target region's content and visibility exactly as they were (only the
`beforeGetFilesDisplay` event fires); in the earlier `DisplayHelper.set`
revision a non-OK HTTP response also leaves the region untouched, but an
`error`-field body — which per the endpoint contract carries no `data`
and so lands in the blank-`data` branch — and a thrown fetch/parse error
both empty the region's content (its visibility is never modified on any
path of the earlier revision). -/
theorem c3_display_error_paths (region : Region) (body : DispBody)
    (h : truthyStr body.error = true) (hd : blankData body.data = true) :
    Display.set region .netThrow = (region, [.beforeGetFilesDisplay])
    ∧ Display.set region .httpBad = (region, [.beforeGetFilesDisplay])
    ∧ Display.set region (.ok body) = (region, [.beforeGetFilesDisplay])
    ∧ DisplayHelper.set region .httpBad = region
    ∧ DisplayHelper.set region (.ok body) = { region with content := "" }
    ∧ DisplayHelper.set region .netThrow = { region with content := "" } := by
  refine ⟨rfl, rfl, ?_, rfl, ?_, rfl⟩
  · simp [Display.set, h]
  · simp [DisplayHelper.set, hd]

theorem c3_display_error_paths_witness :
    truthyStr (some "oops") = true
    ∧ blankData none = true
    ∧ Display.set ⟨"old", false⟩ (.ok ⟨none, some "oops"⟩) =
        (⟨"old", false⟩, [.beforeGetFilesDisplay])
    ∧ DisplayHelper.set ⟨"old", false⟩ .httpBad = ⟨"old", false⟩ :=
  ⟨by decide, by decide,
   (c3_display_error_paths ⟨"old", false⟩ ⟨none, some "oops"⟩
      (by decide) (by decide)).2.2.1,
   (c3_display_error_paths ⟨"old", false⟩ ⟨none, some "oops"⟩
      (by decide) (by decide)).2.2.2.1⟩

/-- C5: for every HTTP-successful fragment response that passes the
`error`-field guard (`src/src/js/util/display.js` lines 64-85): when
`data` is absent or blank after trimming, the target region's content is
set to the empty string and the region is marked hidden, between the
before/after hide events; when `data` is a non-blank string, the region's
content is replaced with that string and the region is marked visible,
between the before/after display events. -/
theorem c5_display_success (region : Region) (body : DispBody)
    (hne : truthyStr body.error = false) :
    (blankData body.data = true →
      Display.set region (.ok body) =
        (⟨"", true⟩,
         [.beforeGetFilesDisplay, .beforeHideFilesDisplay, .afterHideFilesDisplay]))
    ∧ (∀ s, body.data = some s → blankData body.data = false →
      Display.set region (.ok body) =
        (⟨s, false⟩,
         [.beforeGetFilesDisplay, .beforeFilesDisplay, .afterFilesDisplay])) := by
  constructor
  · intro hb
    simp [Display.set, hne, hb]
  · intro s hs hb
    rw [hs] at hb
    simp [Display.set, hne, hb, hs]

theorem c5_display_success_witness :
    Display.set ⟨"old", false⟩ (.ok ⟨some "   ", none⟩) =
      (⟨"", true⟩,
       [.beforeGetFilesDisplay, .beforeHideFilesDisplay, .afterHideFilesDisplay])
    ∧ Display.set ⟨"old", true⟩ (.ok ⟨some "<p>x</p>", none⟩) =
      (⟨"<p>x</p>", false⟩,
       [.beforeGetFilesDisplay, .beforeFilesDisplay, .afterFilesDisplay]) :=
  ⟨(c5_display_success ⟨"old", false⟩ ⟨some "   ", none⟩ (by decide)).1 (by decide),
   (c5_display_success ⟨"old", true⟩ ⟨some "<p>x</p>", none⟩ (by decide)).2
     "<p>x</p>" rfl (by decide)⟩

/-- C4: for a key with no existing record, two `init` calls without the
`reset` flag against an endpoint resolving to `{data: <object>}` perform
exactly one network fetch between them — the second call returns
immediately as a no-op (store unchanged, zero fetches) because the first
call created the record — while a call with `reset = true` performs a
fetch regardless of the store and of the response
(`src/src/js/core/UploadHelper.js` lines 106-126). -/
theorem c4_init_fetch_once (store : Store) (id : String)
    (r : List (String × JSValue)) (berr : Option String)
    (h0 : alGet store id = none) :
    ((UploadHelper.init
        (UploadHelper.init store (.ok ⟨some (.objArg r), berr⟩) id false).1
        (.ok ⟨some (.objArg r), berr⟩) id false).1
      = (UploadHelper.init store (.ok ⟨some (.objArg r), berr⟩) id false).1)
    ∧ ((UploadHelper.init store (.ok ⟨some (.objArg r), berr⟩) id false).2
       + (UploadHelper.init
            (UploadHelper.init store (.ok ⟨some (.objArg r), berr⟩) id false).1
            (.ok ⟨some (.objArg r), berr⟩) id false).2 = 1)
    ∧ (∀ (st2 : Store) (resp : FetchOutcome),
        (UploadHelper.init st2 resp id true).2 = 1) := by
  have hfirst :
      UploadHelper.init store (.ok ⟨some (.objArg r), berr⟩) id false
        = (UploadHelper.set store id (.objArg r), 1) := by
    simp [UploadHelper.init, UploadHelper.initTry, h0]
  have hsome :
      (alGet (UploadHelper.set store id (.objArg r)) id).isSome = true := by
    simp [UploadHelper.set, alGet_alSet_self]
  have hsecond :
      UploadHelper.init (UploadHelper.set store id (.objArg r))
          (.ok ⟨some (.objArg r), berr⟩) id false
        = (UploadHelper.set store id (.objArg r), 0) := by
    simp [UploadHelper.init, hsome]
  refine ⟨?_, ?_, ?_⟩
  · rw [hfirst, hsecond]
  · rw [hfirst, hsecond]
    rfl
  · intro st2 resp
    cases h : UploadHelper.initTry st2 resp id <;>
      simp [UploadHelper.init, h]

theorem c4_init_fetch_once_witness :
    alGet ([] : Store) "a1guid-42" = none
    ∧ ((UploadHelper.init ([] : Store)
          (.ok ⟨some (.objArg [("allow_span", .vStr "*.pdf")]), none⟩)
          "a1guid-42" false).2
       + (UploadHelper.init
            (UploadHelper.init ([] : Store)
              (.ok ⟨some (.objArg [("allow_span", .vStr "*.pdf")]), none⟩)
              "a1guid-42" false).1
            (.ok ⟨some (.objArg [("allow_span", .vStr "*.pdf")]), none⟩)
            "a1guid-42" false).2 = 1)
    ∧ (UploadHelper.init ([] : Store)
        (.ok ⟨some (.objArg [("allow_span", .vStr "*.pdf")]), none⟩)
        "a1guid-42" true).2 = 1 :=
  ⟨rfl,
   (c4_init_fetch_once [] "a1guid-42" [("allow_span", .vStr "*.pdf")] none rfl).2.1,
   (c4_init_fetch_once [] "a1guid-42" [("allow_span", .vStr "*.pdf")] none rfl).2.2
     [] (.ok ⟨some (.objArg [("allow_span", .vStr "*.pdf")]), none⟩)⟩

/-- C6 counterexample: the claim as stated — `get` "returns the stored
value when the field is present" — is false when the stored value is
`null`: the lookup `idData[key] ?? defaultValue`
(`src/src/js/core/UploadHelper.js` line 93) null-coalesces a present
`null` into the default.  Here the record for `"a"` holds the field `"k"`
with stored value `null`, yet `get` returns the default `5`, which is not
the stored value. -/
theorem c6_counterexample :
    alGet [("k", JSValue.vNull)] "k" = some .vNull
    ∧ UploadHelper.get [("a", [("k", JSValue.vNull)])] "a" (some "k") (.vNum 5)
        = .prim (.vNum 5)
    ∧ JSValue.vNull ≠ JSValue.vNum 5 := by
  exact ⟨rfl, rfl, by decide⟩

/-- C6 amended: `MetadataStore.get(key, field, default)` is a total
function (it never raises — this theorem covers every combination of
store, key, field and default): an unknown key yields the default; a known
key with the field omitted yields the whole record; a known key with an
unknown field yields the default; a present field yields its stored value
when that value is not `null`, while a stored `null` also degrades to the
default (the null-coalescing lookup of
`src/src/js/core/UploadHelper.js` line 93). -/
theorem c6_get_total (store : Store) (id : String) (key : Option String)
    (d : JSValue) :
    (alGet store id = none → UploadHelper.get store id key d = .prim d)
    ∧ (∀ r, alGet store id = some r → key = none →
        UploadHelper.get store id key d = .obj r)
    ∧ (∀ r k, alGet store id = some r → key = some k → alGet r k = none →
        UploadHelper.get store id key d = .prim d)
    ∧ (∀ r k, alGet store id = some r → key = some k →
        alGet r k = some .vNull → UploadHelper.get store id key d = .prim d)
    ∧ (∀ r k v, alGet store id = some r → key = some k → alGet r k = some v →
        v ≠ .vNull → UploadHelper.get store id key d = .prim v) := by
  refine ⟨?_, ?_, ?_, ?_, ?_⟩
  · intro h
    simp [UploadHelper.get, h]
  · intro r h hk
    subst hk
    simp [UploadHelper.get, h]
  · intro r k h hk hr
    subst hk
    simp [UploadHelper.get, h, hr]
  · intro r k h hk hr
    subst hk
    simp [UploadHelper.get, h, hr]
  · intro r k v h hk hr hv
    subst hk
    simp [UploadHelper.get, h, hr, hv]

theorem c6_get_total_witness :
    UploadHelper.get [("a", [("k", JSValue.vStr "x"), ("n", JSValue.vNull)])]
        "zzz" (some "k") (.vNum 7) = .prim (.vNum 7)
    ∧ UploadHelper.get [("a", [("k", JSValue.vStr "x"), ("n", JSValue.vNull)])]
        "a" none (.vNum 7) = .obj [("k", .vStr "x"), ("n", .vNull)]
    ∧ UploadHelper.get [("a", [("k", JSValue.vStr "x"), ("n", JSValue.vNull)])]
        "a" (some "missing") (.vNum 7) = .prim (.vNum 7)
    ∧ UploadHelper.get [("a", [("k", JSValue.vStr "x"), ("n", JSValue.vNull)])]
        "a" (some "n") (.vNum 7) = .prim (.vNum 7)
    ∧ UploadHelper.get [("a", [("k", JSValue.vStr "x"), ("n", JSValue.vNull)])]
        "a" (some "k") (.vNum 7) = .prim (.vStr "x") :=
  ⟨(c6_get_total _ "zzz" (some "k") (.vNum 7)).1 rfl,
   (c6_get_total _ "a" none (.vNum 7)).2.1 _ rfl rfl,
   (c6_get_total _ "a" (some "missing") (.vNum 7)).2.2.1 _ "missing" rfl rfl rfl,
   (c6_get_total _ "a" (some "n") (.vNum 7)).2.2.2.1 _ "n" rfl rfl rfl,
   (c6_get_total _ "a" (some "k") (.vNum 7)).2.2.2.2 _ "k" (.vStr "x") rfl rfl rfl
     (by decide)⟩

/-- C8: a confirmed delete of a valid-length id (length > 30) against a
configured endpoint, whose response body has a truthy `success` field,
and whose DOM contains a node with that id, produces exactly this effect
trace (`src/unnamed/part_004` lines 62-98 and 125-131): confirmation,
`beforeFileDelete` event, the GET request, the `beforeFileRemoveFromUI`
event, removal of the node, the positive (`primary`) notification with
the success message, and the `afterFileDelete` event carrying the
response payload and guid — and the node removal occurs exactly once in
the trace. -/
theorem c8_success_delete_flow (endpoint : String) (domHas : String → Bool)
    (guid s : String) (berr : Option String)
    (h1 : 30 < guid.length) (h2 : endpoint ≠ "") (h3 : s ≠ "")
    (h4 : domHas guid = true) :
    DeleteFile.delete endpoint domHas true (.ok ⟨some s, berr⟩) guid =
      [.confirmPrompt deleteConfirmMsg,
       .emit "vdm.uikit.delete.beforeFileDelete" (.guidOnly guid),
       .request (DeleteFile.buildUrl endpoint guid),
       .emit "vdm.uikit.delete.beforeFileRemoveFromUI" (.elemGuid guid guid),
       .removeNode guid,
       .notify s "primary",
       .emit "vdm.uikit.delete.afterFileDelete" (.withData (some s) berr guid)]
    ∧ (DeleteFile.delete endpoint domHas true (.ok ⟨some s, berr⟩) guid).count
        (.removeNode guid) = 1 := by
  have hne : guid ≠ "" := by
    intro h
    rw [h] at h1
    simp at h1
  have htrace :
      DeleteFile.delete endpoint domHas true (.ok ⟨some s, berr⟩) guid =
        [.confirmPrompt deleteConfirmMsg,
         .emit "vdm.uikit.delete.beforeFileDelete" (.guidOnly guid),
         .request (DeleteFile.buildUrl endpoint guid),
         .emit "vdm.uikit.delete.beforeFileRemoveFromUI" (.elemGuid guid guid),
         .removeNode guid,
         .notify s "primary",
         .emit "vdm.uikit.delete.afterFileDelete" (.withData (some s) berr guid)] := by
    simp [DeleteFile.delete, DeleteFile.serverDelete, DeleteFile.handleResponse,
      DeleteFile.fileRemoveFromUI, hne, h2, h3, h4, truthyStr,
      Nat.not_le.mpr h1]
  refine ⟨htrace, ?_⟩
  rw [htrace]
  simp [List.count_cons, List.count_nil]

theorem c8_success_delete_flow_witness :
    DeleteFile.delete "https://example.org/del" (fun _ => true) true
        (.ok ⟨some "removed", none⟩) "abcdefgh-1234-5678-9abc-def012345678" =
      [.confirmPrompt deleteConfirmMsg,
       .emit "vdm.uikit.delete.beforeFileDelete"
         (.guidOnly "abcdefgh-1234-5678-9abc-def012345678"),
       .request (DeleteFile.buildUrl "https://example.org/del"
         "abcdefgh-1234-5678-9abc-def012345678"),
       .emit "vdm.uikit.delete.beforeFileRemoveFromUI"
         (.elemGuid "abcdefgh-1234-5678-9abc-def012345678"
           "abcdefgh-1234-5678-9abc-def012345678"),
       .removeNode "abcdefgh-1234-5678-9abc-def012345678",
       .notify "removed" "primary",
       .emit "vdm.uikit.delete.afterFileDelete"
         (.withData (some "removed") none
           "abcdefgh-1234-5678-9abc-def012345678")] :=
  (c8_success_delete_flow "https://example.org/del" (fun _ => true)
    "abcdefgh-1234-5678-9abc-def012345678" "removed" none
    (by decide) (by decide) (by decide) rfl).1

/-- Invariant-carrying characterisation of the `getParams` fold: starting
from an accumulator that only ever stores live DOM values, the fold's
result maps `k` to `some v` exactly when the accumulator already did or
`k` is one of the processed ids and `v` is its element's live value. -/
theorem getParams_foldl_spec (dom : String → Option String) :
    ∀ (ids : List String) (acc : String → Option String) (k v : String),
      (∀ k0 v0, acc k0 = some v0 → dom k0 = some v0) →
      (List.foldl (getParamsStep dom) acc ids k = some v ↔
        acc k = some v ∨ (k ∈ ids ∧ dom k = some v)) := by
  intro ids
  induction ids with
  | nil =>
    intro acc k v hinv
    simp
  | cons i t ih =>
    intro acc k v hinv
    have hinv2 : ∀ k0 v0, getParamsStep dom acc i k0 = some v0 →
        dom k0 = some v0 := by
      intro k0 v0 h
      unfold getParamsStep at h
      cases hdi : dom i with
      | none =>
        rw [hdi] at h
        exact hinv _ _ h
      | some w =>
        rw [hdi] at h
        by_cases hk : k0 = i
        · subst hk
          simp at h
          rw [hdi, h]
        · simp [hk] at h
          exact hinv _ _ h
    rw [List.foldl_cons, ih (getParamsStep dom acc i) k v hinv2]
    constructor
    · rintro (h | ⟨hmem, hdk⟩)
      · unfold getParamsStep at h
        cases hdi : dom i with
        | none =>
          rw [hdi] at h
          exact Or.inl h
        | some w =>
          rw [hdi] at h
          by_cases hk : k = i
          · subst hk
            simp at h
            subst h
            exact Or.inr ⟨List.mem_cons_self _ _, hdi⟩
          · simp [hk] at h
            exact Or.inl h
      · exact Or.inr ⟨List.mem_cons_of_mem _ hmem, hdk⟩
    · rintro (h | ⟨hmem, hdk⟩)
      · left
        unfold getParamsStep
        cases hdi : dom i with
        | none => exact h
        | some w =>
          by_cases hk : k = i
          · subst hk
            have hdw := hinv _ _ h
            rw [hdi] at hdw
            simp at hdw
            simp [hdw]
          · simp [hk]
            exact h
      · rcases List.mem_cons.mp hmem with hk | hk
        · subst hk
          left
          unfold getParamsStep
          rw [hdk]
          simp
        · exact Or.inr ⟨hk, hdk⟩

/-- C9: `getParams` applied to a list of element ids returns a mapping
that contains exactly the ids of the list whose elements exist in the DOM,
each bound to that element's live value — an id with no element is
omitted, not null-filled — and applied to a non-list input it returns the
empty mapping (`src/src/js/core/UploadHelper.js` lines 154-176). -/
theorem c9_getParams_spec (dom : String → Option String) (ids : List String)
    (k v : String) :
    (UploadHelper.getParams dom (some ids) k = some v ↔
      k ∈ ids ∧ dom k = some v)
    ∧ UploadHelper.getParams dom none k = none := by
  constructor
  · unfold UploadHelper.getParams
    rw [getParams_foldl_spec dom ids (fun _ => none) k v (by intro k0 v0 h; simp at h)]
    simp
  · rfl

theorem c9_getParams_spec_witness :
    UploadHelper.getParams (fun i => if i = "a" then some "1" else none)
        (some ["a", "b"]) "a" = some "1"
    ∧ UploadHelper.getParams (fun i => if i = "a" then some "1" else none)
        (some ["a", "b"]) "b" = none
    ∧ UploadHelper.getParams (fun i => if i = "a" then some "1" else none)
        none "a" = none :=
  ⟨(c9_getParams_spec (fun i => if i = "a" then some "1" else none)
      ["a", "b"] "a" "1").1.mpr ⟨by decide, rfl⟩,
   rfl,
   (c9_getParams_spec (fun i => if i = "a" then some "1" else none)
      ["a", "b"] "a" "1").2⟩
